import Mathlib

/-!
Verification of the token-lifecycle and session-consistency subsystem of the
brandons-mern-starter repository against its natural-language specification.

The backend is shallowly embedded from:
  backend/src/utils/tokenUtils.ts        (generateTokens, generateAccessToken,
                                          formatUserWithoutPassword, setRefreshTokenCookie)
  backend/src/controllers/authController.ts
                                         (registerUser, loginUser, refreshToken,
                                          getCurrentUser, updateEmail, logout)
  backend/src/middleware/authMiddleware.ts (verifyJWT)
  backend/src/middleware/errorMiddleware.ts (duplicate-key translation to 409)
  backend/src/models/User.ts             (UserSchema: email is `unique: true`
                                          with NO `lowercase: true` and no collation,
                                          so the uniqueness key is the exact byte string)
  backend/src/routes/authRoutes.ts       (route wiring; logout sits behind verifyJWT)

The frontend client is shallowly embedded from:
  frontend/src/api/client.ts             (axios request/response interceptors)
  frontend/src/context/AuthProvider.tsx  (getCurrentUser hydration, state effects)

Idealizations, stated once:
* A signed JWT is modelled as a record carrying its claims, its expiry instant
  (seconds) and the secret it was signed with; `jwt.verify(tok, s)` succeeds
  exactly when the token was signed with `s` and `now < exp` (the standard
  symbolic model of an unforgeable MAC).  `jwt.sign` in tokenUtils.ts puts
  exactly `{ userId, email }` in the payload, so the claim record has exactly
  those two (optional, to model payload-shape checks on foreign tokens) fields.
* bcrypt is opaque: handlers take `verify : String → String → Bool`
  (candidate plaintext, stored hash), matching spec §4.1 and the code's
  `user.comparePassword`.
* HTTP plumbing (header string splitting, JSON encoding) is elided: an
  Authorization header is `Option TokenWire`, a cookie jar is `Option TokenWire`,
  a JSON body is a record.  Two equal body records serialize to identical bytes.
* JS string truthiness (`!x` is true for absent and for empty strings) is
  modelled by `jsTruthy`.
-/

namespace MernAuth

/-- A signed JWT in the symbolic signature model. `userId?`/`email?` are optional
so that tokens of a different payload shape (not minted by this code) are
representable; every token minted by `generateTokensCore` has both. -/
structure Jwt where
  userId? : Option String
  email?  : Option String
  /-- absolute expiry, seconds since epoch -/
  exp     : Nat
  /-- the secret the token was signed with; verification against `s` succeeds iff `secret = s` -/
  secret  : String
deriving Repr, DecidableEq

/-- A value arriving on the wire where the code expects a JWT string:
either structurally malformed (jwt.verify throws) or an actual signed token. -/
inductive TokenWire where
  | malformed
  | signed (t : Jwt)
deriving Repr, DecidableEq

/-- `jwt.verify(token, secret)` succeeds iff the signature matches and the token
is unexpired (jsonwebtoken rejects once the clock reaches `exp`). -/
def jwtVerified (t : Jwt) (secret : String) (now : Nat) : Bool :=
  t.secret = secret && now < t.exp

/-- JS truthiness of an optional string: `undefined` and `""` are falsy. -/
def jsTruthy : Option String → Bool
  | none => false
  | some s => s ≠ ""

/-- `expiresIn: "15m"` in tokenUtils.ts, in seconds. -/
def accessTokenTtl : Nat := 15 * 60

/-- `expiresIn: "7d"` in tokenUtils.ts, in seconds. -/
def refreshTokenTtl : Nat := 7 * 24 * 60 * 60

/-- The decoded payload attached to `req.user` by verifyJWT. -/
structure JWTPayload where
  userId : String
  email  : String
deriving Repr, DecidableEq

/-- Core of tokenUtils.generateTokens once the secret is known to be present:
`jwt.sign({userId, email}, secret, {expiresIn: "15m"})` and the same with "7d".
Returns (access token, refresh token). -/
def generateTokensCore (secret userId email : String) (now : Nat) : Jwt × Jwt :=
  (⟨some userId, some email, now + accessTokenTtl, secret⟩,
   ⟨some userId, some email, now + refreshTokenTtl, secret⟩)

/-- tokenUtils.generateTokens: throws a configuration error when JWT_SECRET is
absent, otherwise signs the pair. -/
def generateTokens (secret? : Option String) (userId email : String) (now : Nat) :
    Except String (Jwt × Jwt) :=
  match secret? with
  | none => .error "Server configuration error: missing JWT_SECRET"
  | some secret => .ok (generateTokensCore secret userId email now)

/-- tokenUtils.generateAccessToken: only the 15-minute token. -/
def generateAccessToken (secret? : Option String) (userId email : String) (now : Nat) :
    Except String Jwt :=
  match secret? with
  | none => .error "Server configuration error: missing JWT_SECRET"
  | some secret => .ok ⟨some userId, some email, now + accessTokenTtl, secret⟩

/-- A stored user document (models/User.ts).  `passwordHash` is the bcrypt hash
written by the pre-save hook. -/
structure UserRec where
  id           : String
  name         : String
  email        : String
  passwordHash : String
  isVerified   : Bool
  createdAt    : Nat
  updatedAt    : Nat
deriving Repr, DecidableEq

/-- The user store is the `users` collection.  Its unique index on `email` has
no collation and the schema has no `lowercase: true`, so uniqueness and lookup
are by the exact byte string. -/
abbrev UserStore := List UserRec

/-- `User.findOne({ email })`: exact-match lookup. -/
def findOneByEmail (store : UserStore) (email : String) : Option UserRec :=
  store.find? (fun u => u.email = email)

/-- `User.findById(id)`. -/
def findById (store : UserStore) (id : String) : Option UserRec :=
  store.find? (fun u => u.id = id)

/-- tokenUtils.formatUserWithoutPassword's output shape. -/
structure UserOut where
  id         : String
  name       : String
  email      : String
  isVerified : Bool
  createdAt  : Nat
  updatedAt  : Nat
deriving Repr, DecidableEq

def formatUserWithoutPassword (u : UserRec) : UserOut :=
  ⟨u.id, u.name, u.email, u.isVerified, u.createdAt, u.updatedAt⟩

/-- A Set-Cookie / clearCookie effect on the response. -/
inductive CookieOp where
  | set (name : String) (value : Jwt) (maxAgeMs : Nat)
        (httpOnly secure sameSiteStrict : Bool)
  | clear (name : String)
deriving Repr, DecidableEq

/-- tokenUtils.setRefreshTokenCookie. -/
def setRefreshTokenCookie (isProd : Bool) (rt : Jwt) : CookieOp :=
  .set "refreshToken" rt (7 * 24 * 60 * 60 * 1000) true isProd true

/-- A JSON response body; fields that a given handler does not send are `none`.
Two equal bodies serialize to identical bytes. -/
structure RespBody where
  message    : Option String := none
  token      : Option Jwt := none
  user       : Option UserOut := none
  /-- present only in errorMiddleware-built bodies -/
  statusCode : Option Nat := none
deriving Repr, DecidableEq

structure HttpResponse where
  status : Nat
  body   : RespBody
  cookie : Option CookieOp := none
deriving Repr, DecidableEq

/-- Shorthand for the `res.status(s).json({ message })` responses the
controllers produce. -/
def msgResponse (status : Nat) (m : String) : HttpResponse :=
  { status := status, body := { message := some m } }

/-- errorMiddleware translation of a MongoDB duplicate-key (11000) rejection. -/
def duplicateKeyResponse : HttpResponse :=
  { status := 409, body := { message := some "Email already exists", statusCode := some 409 } }

/-- errorMiddleware translation of a generic thrown Error (e.g. the missing
JWT_SECRET configuration error): statusCode stays 500, message = err.message. -/
def thrownErrorResponse (m : String) : HttpResponse :=
  { status := 500, body := { message := some m, statusCode := some 500 } }

/-- authController.registerUser.  `hash` is the bcrypt pre-save hook, `newId`
the ObjectId Mongo would assign, `now` the clock.  `User.create` is create-if-
no-exact-duplicate: the unique index rejects only a byte-identical email.
Returns the response and the store after the call. -/
def registerUser (hash : String → String) (store : UserStore)
    (name email password1 password2 : String)
    (secret? : Option String) (newId : String) (now : Nat) (isProd : Bool) :
    HttpResponse × UserStore :=
  if name = "" || email = "" || password1 = "" || password2 = "" then
    (msgResponse 400 "All fields are required", store)
  else if password1 ≠ password2 then
    (msgResponse 400 "Passwords do not match", store)
  else if (findOneByEmail store email).isSome then
    -- User.create rejects with MongoError 11000; error middleware answers 409
    (duplicateKeyResponse, store)
  else
    let newUser : UserRec :=
      ⟨newId, name, email, hash password1, true, now, now⟩
    match generateTokens secret? newUser.id newUser.email now with
    | .error m => (thrownErrorResponse m, store.concat newUser)
    | .ok (token, refreshTok) =>
      ({ status := 201,
         body := { token := some token, user := some (formatUserWithoutPassword newUser) },
         cookie := some (setRefreshTokenCookie isProd refreshTok) },
       store.concat newUser)

/-- authController.loginUser.  `verify` is bcrypt.compare (candidate, hash). -/
def loginUser (verify : String → String → Bool) (store : UserStore)
    (email password : String) (secret? : Option String) (now : Nat) (isProd : Bool) :
    HttpResponse :=
  if email = "" || password = "" then
    msgResponse 400 "Email and password are required"
  else
    match findOneByEmail store email with
    | none => msgResponse 401 "Invalid email or password"
    | some user =>
      if ! verify password user.passwordHash then
        msgResponse 401 "Invalid email or password"
      else
        match generateTokens secret? user.id user.email now with
        | .error m => thrownErrorResponse m
        | .ok (token, refreshTok) =>
          { status := 200,
            body := { token := some token, user := some (formatUserWithoutPassword user) },
            cookie := some (setRefreshTokenCookie isProd refreshTok) }

/-- authController.refreshToken.  `cookie?` is `req.cookies.refreshToken`.
Note the try/catch: a missing secret, a malformed token, a bad signature and
an expired token all land in the catch, which answers 401 "Invalid refresh
token"; the payload-shape check answers 401 "Invalid token payload"; the
payload check uses JS truthiness (`!payload.userId`). -/
def refreshToken (secret? : Option String) (cookie? : Option TokenWire) (now : Nat) :
    HttpResponse :=
  match cookie? with
  | none => msgResponse 401 "Unauthorized"
  | some wire =>
    match secret? with
    | none => msgResponse 401 "Invalid refresh token"
    | some secret =>
      match wire with
      | .malformed => msgResponse 401 "Invalid refresh token"
      | .signed t =>
        if ! jwtVerified t secret now then
          msgResponse 401 "Invalid refresh token"
        else if ! jsTruthy t.userId? || ! jsTruthy t.email? then
          msgResponse 401 "Invalid token payload"
        else
          match t.userId?, t.email? with
          | some uid, some em =>
            { status := 200,
              body := { token := some ⟨some uid, some em, now + accessTokenTtl, secret⟩ } }
          | _, _ => msgResponse 401 "Invalid token payload"

/-- authMiddleware.verifyJWT.  `authHeader?` models the bearer token extracted
from the Authorization header (`none` = header absent / not "Bearer ..."), and
the payload check uses the JS `in` operator, i.e. field presence (an empty
string passes here, unlike the refresh handler's truthiness check).
`.ok p` means the middleware set `req.user := p` and called `next()`. -/
def verifyJWT (secret? : Option String) (authHeader? : Option TokenWire) (now : Nat) :
    Except HttpResponse JWTPayload :=
  match authHeader? with
  | none => .error (msgResponse 401 "Missing or invalid auth header")
  | some wire =>
    match secret? with
    | none => .error (msgResponse 500 "Server error")
    | some secret =>
      match wire with
      | .malformed => .error (msgResponse 401 "Invalid or expired token")
      | .signed t =>
        if ! jwtVerified t secret now then
          .error (msgResponse 401 "Invalid or expired token")
        else
          match t.userId?, t.email? with
          | some uid, some em => .ok ⟨uid, em⟩
          | _, _ => .error (msgResponse 401 "Invalid token payload")

/-- authController.getCurrentUser, with `req.user` already set by verifyJWT. -/
def getCurrentUser (store : UserStore) (reqUser? : Option JWTPayload) : HttpResponse :=
  match reqUser? with
  | none => msgResponse 401 "Unauthorized"
  | some p =>
    match findById store p.userId with
    | none => msgResponse 404 "User not found"
    | some u =>
      { status := 200, body := { user := some (formatUserWithoutPassword u) } }

/-- authController.updateEmail.  On a successful save the handler regenerates
both tokens and rotates the refresh cookie.  A `user.save()` whose new email
collides (byte-exactly) with another document's is rejected by the unique
index and surfaces through the error middleware as 409. -/
def updateEmail (verify : String → String → Bool) (store : UserStore)
    (reqUser? : Option JWTPayload) (newEmail password : String)
    (secret? : Option String) (now : Nat) (isProd : Bool) :
    HttpResponse × UserStore :=
  match reqUser? with
  | none => (msgResponse 401 "Unauthorized", store)
  | some p =>
    if newEmail = "" then (msgResponse 400 "New email is required", store)
    else if password = "" then (msgResponse 400 "Password is required", store)
    else
      match findById store p.userId with
      | none => (msgResponse 404 "User not found", store)
      | some user =>
        if ! verify password user.passwordHash then
          (msgResponse 401 "Password is incorrect", store)
        else if user.email = newEmail then
          (msgResponse 400 "New email must be different from current email", store)
        else if store.any (fun v => v.id ≠ user.id && v.email = newEmail) then
          (duplicateKeyResponse, store)
        else
          let user' : UserRec := { user with email := newEmail, updatedAt := now }
          let store' := store.map (fun v => if v.id = user.id then user' else v)
          match generateTokens secret? user'.id user'.email now with
          | .error m => (thrownErrorResponse m, store')
          | .ok (token, refreshTok) =>
            ({ status := 200,
               body := { message := some "Email updated successfully",
                         token := some token,
                         user := some (formatUserWithoutPassword user') },
               cookie := some (setRefreshTokenCookie isProd refreshTok) },
             store')

/-- authController.logout: clear the cookie, 204, no body. -/
def logout : HttpResponse :=
  { status := 204, body := {}, cookie := some (.clear "refreshToken") }

/-- The full POST /api/auth/logout pipeline as wired in authRoutes.ts:
`router.post("/logout", verifyJWT, authController.logout)` — the guard runs
first, and its rejection is the response. -/
def logoutRoute (secret? : Option String) (authHeader? : Option TokenWire) (now : Nat) :
    HttpResponse :=
  match verifyJWT secret? authHeader? now with
  | .error resp => resp
  | .ok _ => logout

end MernAuth

namespace MernAuth.Client

/-!
Client model (frontend/src/api/client.ts and frontend/src/context/AuthProvider.tsx).

The network is an oracle `Env : Nat → ServerReply` giving the server's reply to
the n-th network call the client makes (counting from 0), so "any sequence of
401 responses" is directly quantifiable.  Client-held tokens are opaque
strings.  `apiRequest` is the axios instance with both interceptors attached;
JS recursion depth is modelled with fuel: outcome `none` means the promise
chain was still pending after `fuel` nested interceptor activations.
-/

/-- The transformed user kept in AuthProvider state (transformUser). -/
structure ClientUser where
  id    : String
  name  : String
  email : String
deriving Repr, DecidableEq

/-- What the client can observe of one server reply: a 2xx with a JSON body
(`token` for /auth/refresh, `user` for /auth/me), an HTTP error status, or a
transport failure with no response (`error.response` is undefined). -/
inductive ServerReply where
  | ok (token : Option String) (user : Option ClientUser)
  | httpErr (status : Nat)
  | netErr
deriving Repr, DecidableEq

abbrev Env := Nat → ServerReply

/-- State outside React that the api client reads and writes: the number of
network calls made so far, how many of them were POST /auth/refresh,
localStorage's "token" slot, and whether `window.location.href = "/login"`
was executed. -/
structure NetState where
  calls             : Nat
  refreshCalls      : Nat
  durable           : Option String
  redirectedToLogin : Bool
deriving Repr, DecidableEq

/-- An axios request config: its url and its `_retry` flag (absent = false). -/
structure ReqCfg where
  url     : String
  isRetry : Bool
deriving Repr, DecidableEq

def refreshUrl : String := "/auth/refresh"

/-- Outcome of one awaited apiClient call: fulfilled with the body, or
rejected with the failing response's status (`none` = no response). -/
inductive ReqOutcome where
  | ok (token : Option String) (user : Option ClientUser)
  | err (status : Option Nat)
deriving Repr, DecidableEq

/-- One apiClient call with both interceptors, from client.ts.  The response
interceptor's error branch: on a 401 whose config lacks `_retry`, it awaits
`apiClient.post("/auth/refresh")` — a fresh request through this same
interceptor with no `_retry` flag — then on success stores the new token,
marks `_retry` and replays the original config; on refresh failure it clears
localStorage, redirects to /login and rejects.  Every other error is passed
through.  Outcome `none`: still pending when the fuel ran out. -/
def apiRequest : Nat → Env → ReqCfg → NetState → Option ReqOutcome × NetState
  | 0, _, _, st => (none, st)
  | fuel + 1, env, cfg, st =>
    let reply := env st.calls
    let st1 : NetState :=
      { st with calls := st.calls + 1,
                refreshCalls := st.refreshCalls + (if cfg.url = refreshUrl then 1 else 0) }
    match reply with
    | .ok tok usr => (some (.ok tok usr), st1)
    | .netErr => (some (.err none), st1)
    | .httpErr s =>
      if s = 401 && ! cfg.isRetry then
        match apiRequest fuel env ⟨refreshUrl, false⟩ st1 with
        | (none, st2) => (none, st2)
        | (some (.ok tok _), st2) =>
          -- localStorage.setItem("token", token); config._retry = true; apiClient(config)
          apiRequest fuel env ⟨cfg.url, true⟩ { st2 with durable := some (tok.getD "undefined") }
        | (some (.err s'), st2) =>
          -- localStorage.removeItem("token"); window.location.href = "/login"; reject
          (some (.err s'), { st2 with durable := none, redirectedToLogin := true })
      else (some (.err (some s)), st1)

/-- AuthProvider's React state for one tab, plus the shared `NetState`. -/
structure TabState where
  token   : Option String
  user    : Option ClientUser
  loading : Bool
  error   : Option String
  net     : NetState
deriving Repr, DecidableEq

def genericErrorMessage : String := "An error occurred. Please try again."

/-- AuthProvider.getCurrentUser: set loading, clear error; bail out if no token
in state; otherwise GET /auth/me through the api client.  The catch clears the
in-memory token and user and records an error; the finally clears loading.
If the call is still pending (fuel ran out inside the interceptor) neither the
try, catch nor finally has run yet, so loading stays true. -/
def clientGetCurrentUser (fuel : Nat) (env : Env) (s : TabState) : TabState :=
  let s1 : TabState := { s with loading := true, error := none }
  match s1.token with
  | none => { s1 with loading := false }
  | some _ =>
    match apiRequest fuel env ⟨"/auth/me", false⟩ s1.net with
    | (none, net') => { s1 with net := net' }
    | (some (.ok _ usr), net') =>
      { s1 with user := usr, net := net', loading := false }
    | (some (.err _), net') =>
      { s1 with token := none, user := none,
                error := some genericErrorMessage, net := net', loading := false }

/-- App-load hydration: the `useState` lazy readers take `token` and `loading`
from localStorage, and the `[token]` effect calls getCurrentUser when a token
is present (getCurrentUser is not called at all when it is absent). -/
def hydrate (fuel : Nat) (env : Env) (durable0 : Option String) : TabState :=
  let s0 : TabState :=
    { token := durable0, user := none, loading := durable0.isSome, error := none,
      net := { calls := 0, refreshCalls := 0, durable := durable0, redirectedToLogin := false } }
  match durable0 with
  | some _ => clientGetCurrentUser fuel env s0
  | none => s0

/-- A DOM `storage` event as another tab would cause it. -/
structure StorageEvent where
  key      : String
  newValue : Option String
deriving Repr, DecidableEq

/-- The `storage`-event listeners AuthProvider registers on `window`.
From the source: AuthProvider.tsx registers none — no
`window.addEventListener("storage", ...)` appears anywhere in the frontend
(the only `addEventListener` in the app is ThemeProvider's media-query
listener), so this list is empty. -/
def authProviderStorageListeners : List (StorageEvent → TabState → TabState) := []

/-- Deliver a `storage` event to a tab: fold it through every listener the
provider registered. -/
def dispatchStorageEvent (e : StorageEvent) (s : TabState) : TabState :=
  authProviderStorageListeners.foldl (fun acc f => f e acc) s

/-- Another tab removes localStorage "token": the shared durable slot becomes
empty and the browser fires a `storage` event for key "token" in this tab.
Only the registered listeners can turn that signal into React state changes. -/
def externalTokenClear (s : TabState) : TabState :=
  dispatchStorageEvent ⟨"token", none⟩ { s with net := { s.net with durable := none } }

end MernAuth.Client

namespace MernAuth

/-! Concrete fixtures used by closed theorems and witnesses. -/

/-- A server that answers 401 to every request — exactly what this repo's
backend does once the refresh cookie has expired (its refresh endpoint
answers 401, not 403, on verification failure). -/
def env401 : Client.Env := fun _ => .httpErr 401

/-- A server that answers 404 to every request (e.g. /auth/me for a deleted
user). -/
def env404 : Client.Env := fun _ => .httpErr 404

/-- The spec's golden hydration scenario: /me answers 401, /auth/refresh
answers 200 with a fresh token, the retried /me answers 200 with the user. -/
def envGold : Client.Env := fun n =>
  if n = 0 then .httpErr 401
  else if n = 1 then .ok (some "tok1") none
  else .ok none (some ⟨"id1", "Ann", "ann@x.com"⟩)

/-- /me answers 401 and the refresh attempt fails with 500: the one path on
which the interceptor clears localStorage and redirects to /login. -/
def envRefreshFail : Client.Env := fun n =>
  if n = 0 then .httpErr 401 else .httpErr 500

/-- A tab whose session controller is in the authenticated state. -/
def tabAnn : Client.TabState :=
  { token := some "tok", user := some ⟨"id1", "Ann", "ann@x.com"⟩,
    loading := false, error := none,
    net := { calls := 3, refreshCalls := 0, durable := some "tok", redirectedToLogin := false } }

/-- A stand-in bcrypt hash for closed evaluations (the theorems using it do
not depend on any property of the hash). -/
def hashDemo : String → String := fun p => p ++ "#h"

/-- The most permissive verifier: accepts every (password, hash) pair. -/
def verifyAlways : String → String → Bool := fun _ _ => true

/-- A verifier that accepts exactly the password "pw1" against the stored
hash "HASH1". -/
def verifyPw : String → String → Bool := fun p h => p = "pw1" && h = "HASH1"

/-- The registered user fixture. -/
def annUser : UserRec := ⟨"id1", "Ann", "ann@x.com", "HASH1", true, 0, 0⟩

/-! ### Helper lemmas about the client's api layer -/

/-- Against a server that answers 401 to everything, a refresh request entering
the interceptor spawns another refresh request on its own 401, one per unit of
fuel, and never resolves. -/
lemma apiRequest_env401_refresh :
    ∀ (n : Nat) (st : Client.NetState),
      Client.apiRequest n env401 ⟨Client.refreshUrl, false⟩ st =
        (none, { st with calls := st.calls + n, refreshCalls := st.refreshCalls + n }) := by
  intro n
  induction n with
  | zero => intro st; rfl
  | succ m ih =>
    intro st
    simp only [Client.apiRequest, env401, ih]
    simp only [decide_True, Bool.not_false, Bool.and_self, if_true, ite_true,
      Prod.mk.injEq, Client.NetState.mk.injEq]
    refine ⟨trivial, by omega, by omega, trivial, trivial⟩

/-- The network-call counter never decreases across an apiClient call. -/
lemma apiRequest_calls_le :
    ∀ (fuel : Nat) (env : Client.Env) (cfg : Client.ReqCfg) (st : Client.NetState),
      st.calls ≤ (Client.apiRequest fuel env cfg st).2.calls := by
  intro fuel
  induction fuel with
  | zero => intro env cfg st; exact Nat.le_refl _
  | succ m ih =>
    intro env cfg st
    simp only [Client.apiRequest]
    cases env st.calls with
    | ok tok usr => exact Nat.le_succ _
    | netErr => exact Nat.le_succ _
    | httpErr s =>
      by_cases hb : (s = 401 && ! cfg.isRetry) = true
      · simp only [hb, if_true]
        rcases hnest : Client.apiRequest m env ⟨Client.refreshUrl, false⟩
            { st with calls := st.calls + 1,
                      refreshCalls := st.refreshCalls +
                        (if cfg.url = Client.refreshUrl then 1 else 0) } with ⟨r2, st2⟩
        have h1 : st.calls + 1 ≤ st2.calls := by
          have := ih env ⟨Client.refreshUrl, false⟩
            { st with calls := st.calls + 1,
                      refreshCalls := st.refreshCalls +
                        (if cfg.url = Client.refreshUrl then 1 else 0) }
          rw [hnest] at this
          exact this
        cases r2 with
        | none => exact Nat.le_trans (Nat.le_succ _) h1
        | some o =>
          cases o with
          | ok tok usr =>
            have h2 := ih env ⟨cfg.url, true⟩ { st2 with durable := some (tok.getD "undefined") }
            exact Nat.le_trans (Nat.le_succ _) (Nat.le_trans h1 h2)
          | err s' => exact Nat.le_trans (Nat.le_succ _) h1
      · simp only [hb, if_false]
        exact Nat.le_succ _

/-- The only place the api layer empties localStorage's token slot is the
refresh-failure branch, which also performs the redirect to /login: if a state
satisfies "durable cleared implies redirected", so does the state after any
apiClient call. -/
lemma apiRequest_durable_inv :
    ∀ (fuel : Nat) (env : Client.Env) (cfg : Client.ReqCfg) (st : Client.NetState),
      (st.durable = none → st.redirectedToLogin = true) →
      ((Client.apiRequest fuel env cfg st).2.durable = none →
        (Client.apiRequest fuel env cfg st).2.redirectedToLogin = true) := by
  intro fuel
  induction fuel with
  | zero => intro env cfg st h; exact h
  | succ m ih =>
    intro env cfg st h
    simp only [Client.apiRequest]
    cases env st.calls with
    | ok tok usr => exact h
    | netErr => exact h
    | httpErr s =>
      by_cases hb : (s = 401 && ! cfg.isRetry) = true
      · simp only [hb, if_true]
        rcases hnest : Client.apiRequest m env ⟨Client.refreshUrl, false⟩
            { st with calls := st.calls + 1,
                      refreshCalls := st.refreshCalls +
                        (if cfg.url = Client.refreshUrl then 1 else 0) } with ⟨r2, st2⟩
        have h1 : st2.durable = none → st2.redirectedToLogin = true := by
          have := ih env ⟨Client.refreshUrl, false⟩
            { st with calls := st.calls + 1,
                      refreshCalls := st.refreshCalls +
                        (if cfg.url = Client.refreshUrl then 1 else 0) } h
          rw [hnest] at this
          exact this
        cases r2 with
        | none => exact h1
        | some o =>
          cases o with
          | ok tok usr =>
            exact ih env ⟨cfg.url, true⟩ { st2 with durable := some (tok.getD "undefined") }
              (by intro hd; exact absurd hd (by simp))
          | err s' => intro _; rfl
      · simp only [hb, if_false]
        exact h

/-- One unit of fuel in, the call counter strictly advances. -/
lemma apiRequest_succ_calls :
    ∀ (fuel : Nat) (env : Client.Env) (cfg : Client.ReqCfg) (st : Client.NetState),
      st.calls + 1 ≤ (Client.apiRequest (fuel + 1) env cfg st).2.calls := by
  intro fuel env cfg st
  simp only [Client.apiRequest]
  cases env st.calls with
  | ok tok usr => exact Nat.le_refl _
  | netErr => exact Nat.le_refl _
  | httpErr s =>
    by_cases hb : (s = 401 && ! cfg.isRetry) = true
    · simp only [hb, if_true]
      rcases hnest : Client.apiRequest fuel env ⟨Client.refreshUrl, false⟩
          { st with calls := st.calls + 1,
                    refreshCalls := st.refreshCalls +
                      (if cfg.url = Client.refreshUrl then 1 else 0) } with ⟨r2, st2⟩
      have h1 : st.calls + 1 ≤ st2.calls := by
        have := apiRequest_calls_le fuel env ⟨Client.refreshUrl, false⟩
          { st with calls := st.calls + 1,
                    refreshCalls := st.refreshCalls +
                      (if cfg.url = Client.refreshUrl then 1 else 0) }
        rw [hnest] at this
        exact this
      cases r2 with
      | none => exact h1
      | some o =>
        cases o with
        | ok tok usr =>
          exact Nat.le_trans h1
            (apiRequest_calls_le fuel env ⟨cfg.url, true⟩
              { st2 with durable := some (tok.getD "undefined") })
        | err s' => exact h1
    · simp only [hb, if_false]
      exact Nat.le_refl _

/-- Shape of AuthProvider.getCurrentUser's result when a token is in state:
the network state is the one the api call left behind, and whenever the run
ended in the catch (an error is recorded) the in-memory token and user have
been cleared and loading is off. -/
lemma clientGetCurrentUser_cases (fuel : Nat) (env : Client.Env) (s : Client.TabState)
    (tk : String) (h : s.token = some tk) :
    (Client.clientGetCurrentUser fuel env s).net =
      (Client.apiRequest fuel env ⟨"/auth/me", false⟩ s.net).2 ∧
    ((Client.clientGetCurrentUser fuel env s).error.isSome = true →
      (Client.clientGetCurrentUser fuel env s).token = none ∧
      (Client.clientGetCurrentUser fuel env s).user = none ∧
      (Client.clientGetCurrentUser fuel env s).loading = false) := by
  rcases hreq : Client.apiRequest fuel env ⟨"/auth/me", false⟩ s.net with ⟨r, net'⟩
  simp only [Client.clientGetCurrentUser, h, hreq]
  cases r with
  | none => simp
  | some o =>
    cases o with
    | ok tok usr => simp
    | err s' => simp

/-! ### Claim theorems -/

/-- Claim C1.  The refresh endpoint: a missing cookie does yield 401 and a
valid cookie does yield 200 with matching claims, but an expired, invalid or
malformed refresh token yields **401**, not the 403 the claim (and the
repository's own design documents) require.  This closed theorem evaluates
the handler on all four inputs: missing cookie → 401; a token expired one
second ago → 401 (≠ 403); a malformed cookie → 401 (≠ 403); a live token →
200 with a fresh access token carrying the same userId and email. -/
theorem C1_refresh_invalid_token_is_401_not_403 :
    refreshToken (some "s") none 0 = msgResponse 401 "Unauthorized" ∧
    refreshToken (some "s") (some (.signed ⟨some "u1", some "ann@x.com", 100, "s"⟩)) 100
      = msgResponse 401 "Invalid refresh token" ∧
    (refreshToken (some "s") (some (.signed ⟨some "u1", some "ann@x.com", 100, "s"⟩)) 100).status ≠ 403 ∧
    refreshToken (some "s") (some .malformed) 0 = msgResponse 401 "Invalid refresh token" ∧
    refreshToken (some "s") (some (.signed ⟨some "u1", some "ann@x.com", 100, "s"⟩)) 50
      = { status := 200,
          body := { token := some ⟨some "u1", some "ann@x.com", 50 + accessTokenTtl, "s"⟩ } } := by
  refine ⟨rfl, ?_, ?_, rfl, ?_⟩ <;> decide

/-- Claim C2.  The per-request `_retry` flag does NOT bound refresh attempts:
the interceptor issues its refresh call through the same intercepted client,
and that refresh request starts with no `_retry` flag, so when the server
answers 401 to everything (exactly what this backend does once the refresh
cookie has expired, since its refresh endpoint answers 401 rather than 403)
a single original request spawns one refresh call per unit of available fuel
and never resolves: for every n, a run with fuel n+1 makes n refresh calls —
there is no bound on the chain of refresh calls. -/
theorem C2_unbounded_refresh_chain (n : Nat) :
    (Client.apiRequest (n + 1) env401 ⟨"/auth/me", false⟩ ⟨0, 0, some "tok", false⟩).1
      = none ∧
    (Client.apiRequest (n + 1) env401 ⟨"/auth/me", false⟩ ⟨0, 0, some "tok", false⟩).2.refreshCalls
      = n := by
  simp only [Client.apiRequest, env401, apiRequest_env401_refresh]
  simp [Client.refreshUrl]

/-- Claim C3.  Clearing the durable token slot from another tab does NOT move
an open session controller instance to the anonymous state: AuthProvider
registers no `storage` listener (`authProviderStorageListeners = []`), so
delivering the cross-tab storage-clear signal to an authenticated tab leaves
its in-memory user and token — and hence its authenticated view — unchanged,
even though the shared durable slot is now empty. -/
theorem C3_external_storage_clear_is_ignored :
    (Client.externalTokenClear tabAnn).user = some ⟨"id1", "Ann", "ann@x.com"⟩ ∧
    (Client.externalTokenClear tabAnn).token = some "tok" ∧
    (Client.externalTokenClear tabAnn).loading = false ∧
    (Client.externalTokenClear tabAnn).net.durable = none := by
  refine ⟨rfl, rfl, rfl, rfl⟩

/-- Claim C4.  Emails are NOT normalized to lowercase: the schema's unique
index and `findOne` both use the exact byte string.  Registering
"ann@x.com" and then its case variant "ANN@X.COM" yields two 201 successes
(the claim demands exactly one success and one 409), and logging in with the
case variant of the one registered email fails with 401 even under a
verifier that accepts every password. -/
theorem C4_email_case_variants_not_normalized :
    (registerUser hashDemo [] "Ann" "ann@x.com" "Str0ng!pass" "Str0ng!pass"
        (some "s") "id1" 0 false).1.status = 201 ∧
    (registerUser hashDemo
        (registerUser hashDemo [] "Ann" "ann@x.com" "Str0ng!pass" "Str0ng!pass"
          (some "s") "id1" 0 false).2
        "Ann" "ANN@X.COM" "Str0ng!pass" "Str0ng!pass"
        (some "s") "id2" 1 false).1.status = 201 ∧
    (loginUser verifyAlways
        (registerUser hashDemo [] "Ann" "ann@x.com" "Str0ng!pass" "Str0ng!pass"
          (some "s") "id1" 0 false).2
        "ANN@X.COM" "Str0ng!pass" (some "s") 2 false).status = 401 := by
  refine ⟨rfl, ?_, ?_⟩ <;> decide

/-- Claim C8, counterexample.  A hydration failure that is not
401-with-failed-refresh does NOT clear the durably-stored token: with a
stored token and a server answering 404 on /auth/me (identity deleted), the
controller ends anonymous in memory (error recorded, token and user cleared)
yet localStorage still holds the token — refuting "on failure at any point it
clears the durably-stored token" for every failure outcome. -/
theorem C8_counterexample_404_keeps_durable :
    (Client.hydrate 5 env404 (some "tok0")).error.isSome = true ∧
    (Client.hydrate 5 env404 (some "tok0")).token = none ∧
    (Client.hydrate 5 env404 (some "tok0")).user = none ∧
    (Client.hydrate 5 env404 (some "tok0")).net.durable = some "tok0" := by
  refine ⟨rfl, rfl, rfl, rfl⟩

/-- Claim C8, amended.  Hydration behaves as claimed except for the durable
slot: with no stored token the controller is immediately anonymous with no
network call; with a stored token the /auth/me call is made; every failure
outcome clears the in-memory token and user and ends loading (anonymous); but
the durably-stored token is cleared only on the 401-with-failed-refresh path
(clearing it always comes with the interceptor's redirect to /login); and on
the spec's golden scenario (401, successful refresh, successful retry) the
controller ends authenticated having made exactly one refresh call. -/
theorem C8_hydration_amended (env : Client.Env) (fuel : Nat) (t : String) :
    Client.hydrate fuel env none =
      { token := none, user := none, loading := false, error := none,
        net := { calls := 0, refreshCalls := 0, durable := none,
                 redirectedToLogin := false } } ∧
    1 ≤ (Client.hydrate (fuel + 1) env (some t)).net.calls ∧
    ((Client.hydrate fuel env (some t)).error.isSome = true →
      (Client.hydrate fuel env (some t)).token = none ∧
      (Client.hydrate fuel env (some t)).user = none ∧
      (Client.hydrate fuel env (some t)).loading = false) ∧
    ((Client.hydrate fuel env (some t)).net.durable = none →
      (Client.hydrate fuel env (some t)).net.redirectedToLogin = true) ∧
    Client.hydrate 5 envGold (some "tok0") =
      { token := some "tok0", user := some ⟨"id1", "Ann", "ann@x.com"⟩,
        loading := false, error := none,
        net := { calls := 3, refreshCalls := 1, durable := some "tok1",
                 redirectedToLogin := false } } := by
  have hh : ∀ f : Nat, Client.hydrate f env (some t) =
      Client.clientGetCurrentUser f env
        { token := some t, user := none, loading := true, error := none,
          net := { calls := 0, refreshCalls := 0, durable := some t,
                   redirectedToLogin := false } } := fun _ => rfl
  refine ⟨rfl, ?_, ?_, ?_, rfl⟩
  · rw [hh, (clientGetCurrentUser_cases _ _ _ t rfl).1]
    exact apiRequest_succ_calls fuel env ⟨"/auth/me", false⟩
      { calls := 0, refreshCalls := 0, durable := some t, redirectedToLogin := false }
  · rw [hh]
    exact (clientGetCurrentUser_cases _ _ _ t rfl).2
  · rw [hh, (clientGetCurrentUser_cases _ _ _ t rfl).1]
    exact apiRequest_durable_inv fuel env ⟨"/auth/me", false⟩
      { calls := 0, refreshCalls := 0, durable := some t, redirectedToLogin := false }
      (by intro hd; exact absurd hd (by simp))

/-- Claim C8, witness for the amended theorem's hypotheses: under the
404-answering server the error-outcome implication fires (in-memory state
cleared), and under the 401-then-500 server the durable-cleared implication
fires (the clearing came with the redirect). -/
theorem C8_hydration_amended_witness :
    ((Client.hydrate 4 env404 (some "tokA")).token = none ∧
      (Client.hydrate 4 env404 (some "tokA")).user = none ∧
      (Client.hydrate 4 env404 (some "tokA")).loading = false) ∧
    (Client.hydrate 4 envRefreshFail (some "tokA")).net.redirectedToLogin = true :=
  ⟨(C8_hydration_amended env404 4 "tokA").2.2.1 rfl,
   (C8_hydration_amended envRefreshFail 4 "tokA").2.2.2.1 rfl⟩

/-- Claim C5.  Enumeration resistance of login: for any store, any verifier
and any two well-formed login attempts, one with an email that matches no
record and one with a stored record but a password the verifier rejects, the
two responses are the same value — same status (401) and equal bodies, hence
byte-identical serializations — namely the generic
"Invalid email or password" response. -/
theorem C5_login_enumeration_resistance
    (verify : String → String → Bool) (store : UserStore)
    (e1 p1 e2 p2 : String) (secret? : Option String) (now : Nat) (isProd : Bool)
    (u : UserRec)
    (he1 : e1 ≠ "") (hp1 : p1 ≠ "") (he2 : e2 ≠ "") (hp2 : p2 ≠ "")
    (hmiss : findOneByEmail store e1 = none)
    (hfound : findOneByEmail store e2 = some u)
    (hwrong : verify p2 u.passwordHash = false) :
    loginUser verify store e1 p1 secret? now isProd
      = loginUser verify store e2 p2 secret? now isProd ∧
    loginUser verify store e1 p1 secret? now isProd
      = msgResponse 401 "Invalid email or password" := by
  unfold loginUser
  simp [he1, hp1, he2, hp2, hmiss, hfound, hwrong]

/-- Claim C5, witness: a store holding only Ann; a login for an absent email
with a correct-shaped password and a login for Ann's email with a wrong
password produce the identical 401 response. -/
theorem C5_login_enumeration_resistance_witness :
    loginUser verifyPw [annUser] "bob@x.com" "pw1" (some "s") 0 false
      = loginUser verifyPw [annUser] "ann@x.com" "wrong" (some "s") 0 false ∧
    loginUser verifyPw [annUser] "bob@x.com" "pw1" (some "s") 0 false
      = msgResponse 401 "Invalid email or password" :=
  C5_login_enumeration_resistance verifyPw [annUser] "bob@x.com" "pw1" "ann@x.com" "wrong"
    (some "s") 0 false annUser (by decide) (by decide) (by decide) (by decide)
    (by decide) (by decide) (by decide)

/-- Every rejection produced by verifyJWT carries no cookie operation. -/
lemma verifyJWT_error_cookie (secret? : Option String) (authHeader? : Option TokenWire)
    (now : Nat) (e : HttpResponse) (he : verifyJWT secret? authHeader? now = .error e) :
    e.cookie = none := by
  unfold verifyJWT at he
  cases authHeader? with
  | none => injection he with h; subst h; rfl
  | some wire =>
    cases secret? with
    | none => injection he with h; subst h; rfl
    | some secret =>
      cases wire with
      | malformed => injection he with h; subst h; rfl
      | signed t =>
        by_cases hv : jwtVerified t secret now = true
        · simp only [hv, Bool.not_true, Bool.false_eq_true, if_false] at he
          cases hu : t.userId? with
          | none => rw [hu] at he; cases he' : t.email? <;> rw [he'] at he <;>
              (injection he with h; subst h; rfl)
          | some uid =>
            rw [hu] at he
            cases he' : t.email? with
            | none => rw [he'] at he; injection he with h; subst h; rfl
            | some em => rw [he'] at he; cases he
        · simp only [Bool.not_eq_true] at hv
          simp only [hv, Bool.not_false, if_true] at he
          injection he with h; subst h; rfl

/-- Claim C6, counterexample.  Logout does NOT tolerate a missing or expired
access token: the route is wired behind verifyJWT, so a logout request with
no bearer token, and one whose token expired, are both answered 401 and the
refreshToken cookie is NOT cleared — refuting "for every request to the
logout endpoint, including requests with a missing, malformed, or expired
access token, the response clears the refreshToken cookie and does not
return an error". -/
theorem C6_counterexample_logout_requires_token :
    (logoutRoute (some "s") none 0).status = 401 ∧
    (logoutRoute (some "s") none 0).cookie = none ∧
    (logoutRoute (some "s")
        (some (.signed ⟨some "u1", some "ann@x.com", 100, "s"⟩)) 200).status = 401 ∧
    (logoutRoute (some "s")
        (some (.signed ⟨some "u1", some "ann@x.com", 100, "s"⟩)) 200).cookie = none := by
  refine ⟨rfl, rfl, ?_, ?_⟩ <;> decide

/-- Claim C6, amended.  The logout handler itself never errors and always
clears the cookie, but it is only reached through the verifyJWT guard: a
request the guard accepts gets 204 with the refreshToken cookie cleared,
while a request the guard rejects (missing/malformed/expired/misshapen
token, or missing secret) receives the guard's error response, which never
clears any cookie. -/
theorem C6_logout_guarded (secret? : Option String) (authHeader? : Option TokenWire)
    (now : Nat) :
    (∀ p : JWTPayload, verifyJWT secret? authHeader? now = .ok p →
      logoutRoute secret? authHeader? now =
        { status := 204, body := {}, cookie := some (.clear "refreshToken") }) ∧
    (∀ e : HttpResponse, verifyJWT secret? authHeader? now = .error e →
      logoutRoute secret? authHeader? now = e ∧ e.cookie = none) := by
  constructor
  · intro p hp
    unfold logoutRoute
    rw [hp]
    rfl
  · intro e he
    refine ⟨?_, verifyJWT_error_cookie secret? authHeader? now e he⟩
    unfold logoutRoute
    rw [he]

/-- Claim C6, witness: with a live token logout answers 204 and clears the
cookie; with no Authorization header it answers the guard's 401 and clears
nothing. -/
theorem C6_logout_guarded_witness :
    logoutRoute (some "s") (some (.signed ⟨some "u1", some "ann@x.com", 100, "s"⟩)) 0
      = { status := 204, body := {}, cookie := some (.clear "refreshToken") } ∧
    (logoutRoute (some "s") none 0 = msgResponse 401 "Missing or invalid auth header" ∧
      (msgResponse 401 "Missing or invalid auth header").cookie = none) :=
  ⟨(C6_logout_guarded (some "s")
      (some (.signed ⟨some "u1", some "ann@x.com", 100, "s"⟩)) 0).1 ⟨"u1", "ann@x.com"⟩ rfl,
   (C6_logout_guarded (some "s") none 0).2 (msgResponse 401 "Missing or invalid auth header") rfl⟩

/-- Claim C7.  Every successful UpdateEmail issues a fresh token pair: the
200 response carries an access token whose email claim is the new email
(expiring 15 minutes from now) and a Set-Cookie replacing the refreshToken
cookie with a fresh 7-day refresh token minted for the new email. -/
theorem C7_updateEmail_fresh_pair
    (verify : String → String → Bool) (store : UserStore)
    (reqUser? : Option JWTPayload) (newEmail password : String)
    (secret? : Option String) (now : Nat) (isProd : Bool)
    (h : (updateEmail verify store reqUser? newEmail password secret? now isProd).1.status
          = 200) :
    ∃ uid secret,
      secret? = some secret ∧
      (updateEmail verify store reqUser? newEmail password secret? now isProd).1.body.token
        = some ⟨some uid, some newEmail, now + accessTokenTtl, secret⟩ ∧
      (updateEmail verify store reqUser? newEmail password secret? now isProd).1.cookie
        = some (.set "refreshToken" ⟨some uid, some newEmail, now + refreshTokenTtl, secret⟩
            (7 * 24 * 60 * 60 * 1000) true isProd true) := by
  cases hru : reqUser? with
  | none => rw [hru] at h; simp [updateEmail, msgResponse] at h
  | some p =>
    by_cases h1 : newEmail = ""
    · rw [hru] at h; simp [updateEmail, h1, msgResponse] at h
    · by_cases h2 : password = ""
      · rw [hru] at h; simp [updateEmail, h1, h2, msgResponse] at h
      · cases hfu : findById store p.userId with
        | none => rw [hru] at h; simp [updateEmail, h1, h2, hfu, msgResponse] at h
        | some user =>
          by_cases h3 : verify password user.passwordHash = true
          · by_cases h4 : user.email = newEmail
            · rw [hru] at h
              simp [updateEmail, h1, h2, hfu, h3, h4, msgResponse] at h
            · by_cases h5 : ∃ x ∈ store, ¬x.id = user.id ∧ x.email = newEmail
              · rw [hru] at h
                simp [updateEmail, h1, h2, hfu, h3, h4, h5, duplicateKeyResponse] at h
              · cases hs : secret? with
                | none =>
                  rw [hru, hs] at h
                  simp [updateEmail, h1, h2, hfu, h3, h4, h5, generateTokens,
                    thrownErrorResponse] at h
                | some secret =>
                  refine ⟨user.id, secret, rfl, ?_, ?_⟩ <;>
                    simp [updateEmail, hru, hs, h1, h2, hfu, h3, h4, h5, generateTokens,
                      generateTokensCore, setRefreshTokenCookie]
          · rw [Bool.not_eq_true] at h3
            rw [hru] at h
            simp [updateEmail, h1, h2, hfu, h3, msgResponse] at h

/-- Claim C7, witness: Ann changes her email to ann2@x.com with the correct
password; the run succeeds and the theorem yields the fresh pair. -/
theorem C7_updateEmail_fresh_pair_witness :
    (updateEmail verifyPw [annUser] (some ⟨"id1", "ann@x.com"⟩) "ann2@x.com" "pw1"
        (some "s") 9 false).1.status = 200 ∧
    ∃ uid secret,
      (some "s" : Option String) = some secret ∧
      (updateEmail verifyPw [annUser] (some ⟨"id1", "ann@x.com"⟩) "ann2@x.com" "pw1"
          (some "s") 9 false).1.body.token
        = some ⟨some uid, some "ann2@x.com", 9 + accessTokenTtl, secret⟩ ∧
      (updateEmail verifyPw [annUser] (some ⟨"id1", "ann@x.com"⟩) "ann2@x.com" "pw1"
          (some "s") 9 false).1.cookie
        = some (.set "refreshToken" ⟨some uid, some "ann2@x.com", 9 + refreshTokenTtl, secret⟩
            (7 * 24 * 60 * 60 * 1000) true false true) :=
  ⟨by decide,
   C7_updateEmail_fresh_pair verifyPw [annUser] (some ⟨"id1", "ann@x.com"⟩) "ann2@x.com"
     "pw1" (some "s") 9 false (by decide)⟩

/-- Claim C10.  Access and refresh tokens are interchangeable: a pair minted
by generateTokens shares the signing secret and the exact claim record (only
the expiry differs, and nothing marks a role); the 7-day refresh token
passes the bearer guard verifyJWT anywhere inside its own lifetime, decoding
to the same identity; and an unexpired access token presented as the
refreshToken cookie is accepted by the refresh endpoint, which mints a fresh
access token for the same claims. -/
theorem C10_tokens_interchangeable (secret uid email : String) (iat now : Nat)
    (huid : uid ≠ "") (hemail : email ≠ "") :
    ((generateTokensCore secret uid email iat).1.secret
       = (generateTokensCore secret uid email iat).2.secret ∧
     (generateTokensCore secret uid email iat).1.userId?
       = (generateTokensCore secret uid email iat).2.userId? ∧
     (generateTokensCore secret uid email iat).1.email?
       = (generateTokensCore secret uid email iat).2.email?) ∧
    (now < iat + refreshTokenTtl →
      verifyJWT (some secret) (some (.signed (generateTokensCore secret uid email iat).2)) now
        = .ok ⟨uid, email⟩) ∧
    (now < iat + accessTokenTtl →
      refreshToken (some secret) (some (.signed (generateTokensCore secret uid email iat).1)) now
        = { status := 200,
            body := { token := some ⟨some uid, some email, now + accessTokenTtl, secret⟩ } }) := by
  refine ⟨⟨rfl, rfl, rfl⟩, ?_, ?_⟩
  · intro hnow
    simp [verifyJWT, generateTokensCore, jwtVerified, hnow]
  · intro hnow
    simp [refreshToken, generateTokensCore, jwtVerified, jsTruthy, hnow, huid, hemail]

/-- Claim C10, witness: the pair minted at time 0 for Ann; at time 10 the
refresh token passes the bearer guard and the access token is accepted by
the refresh endpoint. -/
theorem C10_tokens_interchangeable_witness :
    verifyJWT (some "s") (some (.signed (generateTokensCore "s" "u1" "ann@x.com" 0).2)) 10
      = .ok ⟨"u1", "ann@x.com"⟩ ∧
    refreshToken (some "s") (some (.signed (generateTokensCore "s" "u1" "ann@x.com" 0).1)) 10
      = { status := 200,
          body := { token := some ⟨some "u1", some "ann@x.com", 10 + accessTokenTtl, "s"⟩ } } :=
  ⟨(C10_tokens_interchangeable "s" "u1" "ann@x.com" 0 10 (by decide) (by decide)).2.1
     (by decide),
   (C10_tokens_interchangeable "s" "u1" "ann@x.com" 0 10 (by decide) (by decide)).2.2
     (by decide)⟩

/-- Claim C9.  A refresh response never carries a Set-Cookie: on every input —
success or failure — the refresh handler leaves the refreshToken cookie
untouched, so a successful refresh mints only a new access token and the
original refresh token's 7-day window is unchanged. -/
theorem C9_refresh_never_sets_cookie :
    ∀ (secret? : Option String) (cookie? : Option TokenWire) (now : Nat),
      (refreshToken secret? cookie? now).cookie = none := by
  intro secret? cookie? now
  unfold refreshToken
  cases cookie? with
  | none => rfl
  | some wire =>
    cases secret? with
    | none => rfl
    | some secret =>
      cases wire with
      | malformed => rfl
      | signed t =>
        by_cases hv : jwtVerified t secret now = true
        · simp only [hv]
          by_cases hp : (! jsTruthy t.userId? || ! jsTruthy t.email?) = true
          · simp [hp, msgResponse]
          · simp only [Bool.not_eq_true] at hp
            simp only [hp]
            cases hu : t.userId? <;> cases he : t.email? <;> simp [msgResponse]
        · simp only [Bool.not_eq_true] at hv
          simp [hv, msgResponse]

end MernAuth
